import Mathlib

/-!
Verification of the research-bot repository's relevance-scored log store and
four-stage research pipeline (src/research_bot/research_log.py and
src/research_bot/agent.py), shallowly embedded in Lean.

Modelling conventions:
* Python floats are modelled as exact rationals (`ℚ`); all score arithmetic in
  the source is on small decimal constants, so the rational model is faithful.
* Python strings are modelled as Lean `String` (a list of characters); the
  character classes used by `re` (`\w`, `\s`) and `str.lower`/`str.strip` are
  modelled at the ASCII level, matching the source's behaviour on ASCII text.
* The JSON file behind the log is modelled as an abstract disk state: the file
  is absent, unreadable, unparseable (which includes an empty file), parseable
  but not an array, or an array of entries.  `json.load`'s parsing of raw
  bytes is abstracted to this classification; entry dict keys that may be
  missing are `Option`-valued fields.
* The LLM calls made by the pipeline stages are modelled as an oracle record
  of response functions; a model that "produces no content" returns `""`
  (the falsy value the source tests with `if msg.content`).
-/

/-- Python `str.isspace` on the characters `str.strip()` and `re`'s `\s`
treat as whitespace (ASCII range). -/
def isPySpace (c : Char) : Bool :=
  c == ' ' || c == '\t' || c == '\n' || c == '\r' || c == '\x0b' || c == '\x0c'

/-- A character matched by `re`'s `\w` (ASCII range): letters, digits, `_`. -/
def isWordChar (c : Char) : Bool :=
  c.isAlphanum || c == '_'

/-- Drop leading and trailing whitespace from a character list: Python
`str.strip()`. -/
def pyStripChars (cs : List Char) : List Char :=
  ((cs.dropWhile isPySpace).reverse.dropWhile isPySpace).reverse

/-- Python `str.strip()`. -/
def pyStrip (s : String) : String :=
  ⟨pyStripChars s.data⟩

/-- Replace each maximal run of whitespace by a single `' '`:
`re.sub(r"\s+", " ", s)`. -/
def collapseWs : List Char → List Char
  | [] => []
  | [c] => if isPySpace c then [' '] else [c]
  | c₁ :: c₂ :: rest =>
    if isPySpace c₁ && isPySpace c₂ then collapseWs (c₂ :: rest)
    else (if isPySpace c₁ then ' ' else c₁) :: collapseWs (c₂ :: rest)

/-- The character-list pipeline of `_normalize` (research_log.py lines 13-18):
lowercase, strip, replace non-word/non-space characters with spaces, collapse
whitespace, strip again. -/
def normChars (cs : List Char) : List Char :=
  let lowered := pyStripChars (cs.map Char.toLower)
  let replaced := lowered.map fun c => if isWordChar c || isPySpace c then c else ' '
  pyStripChars (collapseWs replaced)

/-- `_normalize` from research_log.py. -/
def _normalize (s : String) : String :=
  ⟨normChars s.data⟩

/-- Split a character list at whitespace runs, dropping empty pieces: Python
`str.split()` with no arguments.  `cur` accumulates the current word in
reverse. -/
def splitAux : List Char → List Char → List (List Char)
  | [], cur => if cur = [] then [] else [cur.reverse]
  | c :: rest, cur =>
    if isPySpace c then
      if cur = [] then splitAux rest [] else cur.reverse :: splitAux rest []
    else splitAux rest (c :: cur)

/-- Python `s.split()`. -/
def pySplit (s : String) : List String :=
  (splitAux s.data []).map String.mk

/-- The stop words removed by `_word_set` (research_log.py line 22). -/
def stopWords : List String :=
  ["a", "an", "the", "is", "are", "what", "how", "when", "where", "why", "who"]

/-- `_word_set` from research_log.py: the set of words of the normalized
string, minus the stop words. -/
def _word_set (s : String) : Finset String :=
  (pySplit (_normalize s)).toFinset \ stopWords.toFinset

/-- Contiguous-substring test on character lists: Python's `a in b` for
strings.  `listStartsWith a b` holds when `b` begins with `a`. -/
def listStartsWith : List Char → List Char → Bool
  | [], _ => true
  | _ :: _, [] => false
  | a :: as, b :: bs => a == b && listStartsWith as bs

/-- `a` occurs contiguously inside `b` (Python `a in b` on strings). -/
def isSubstrOf (a : List Char) : List Char → Bool
  | [] => listStartsWith a []
  | b :: bs => listStartsWith a (b :: bs) || isSubstrOf a bs

/-- `_relevance_score` from research_log.py lines 25-42, with floats as exact
rationals (`1.2 = 12/10`, `0.9 = 9/10`). -/
def _relevance_score (query logged_query : String) : ℚ :=
  let nq := _normalize query
  let nlogged := _normalize logged_query
  if nq = "" then 0
  else if nq = nlogged then 1
  else if isSubstrOf nq.data nlogged.data || isSubstrOf nlogged.data nq.data then 9/10
  else
    let q_words := _word_set query
    let log_words := _word_set logged_query
    if q_words = ∅ then 0
    else min (((q_words ∩ log_words).card : ℚ) / (q_words.card : ℚ) * (12/10)) 1

/-- The scoring algorithm exactly as the specification words it (spec §4.1
steps 1-5): same normalization, then `min(1.0, 1.2 × |intersection| /
|query_word_set|)` in the word-overlap case. -/
def spec_relevance_score (query logged_query : String) : ℚ :=
  let nq := _normalize query
  let nl := _normalize logged_query
  if nq = "" then 0
  else if nq = nl then 1
  else if isSubstrOf nq.data nl.data || isSubstrOf nl.data nq.data then 9/10
  else if _word_set query = ∅ then 0
  else min 1 ((12/10) * ((_word_set query ∩ _word_set logged_query).card : ℚ)
      / ((_word_set query).card : ℚ))

/-- Round-half-to-even on rationals: the rounding `round()` applies in Python. -/
def roundHalfEven (q : ℚ) : ℤ :=
  if q - ⌊q⌋ < 1/2 then ⌊q⌋
  else if 1/2 < q - ⌊q⌋ then ⌊q⌋ + 1
  else if ⌊q⌋ % 2 = 0 then ⌊q⌋ else ⌊q⌋ + 1

/-- Python `round(q, 2)`. -/
def round2 (q : ℚ) : ℚ :=
  (roundHalfEven (q * 100) : ℚ) / 100

/-- One element of the JSON array on disk, as the reading code accesses it:
each key the code touches may be missing (`e.get(...)`). -/
structure StoredEntry where
  query : Option String
  response : Option String
  timestamp : Option String
  response_time_seconds : Option ℚ
deriving DecidableEq

/-- The states of the log file on which `load_entries` COMPLETES, at the
granularity it distinguishes: missing path, unreadable file (`OSError`),
UTF-8 text that does not parse as JSON (which includes an empty file), JSON
that is not an array, or an array of entries.  This type deliberately covers
only the completing states; the one remaining disk state — a file whose
bytes are not valid UTF-8, on which the source raises — is `RawLogFile.invalidUtf8`
below. -/
inductive LogFile where
  | missing
  | unreadable
  | invalidJson
  | jsonNonArray
  | jsonArray (entries : List StoredEntry)
deriving DecidableEq

/-- `load_entries` from research_log.py lines 50-60, on the states where it
completes: the entry list on a well-formed array, `[]` in every caught
failure case. -/
def load_entries : LogFile → List StoredEntry
  | .jsonArray entries => entries
  | _ => []

/-- The FULL disk-state space for the log file: either a state on which
`load_entries` completes, or a present, readable file whose bytes are not
valid UTF-8.  On the latter, `open(path, encoding="utf-8")` + `json.load`
raise `UnicodeDecodeError` while decoding. -/
inductive RawLogFile where
  | decodable (f : LogFile)
  | invalidUtf8
deriving DecidableEq

/-- What a call to a Python function does: return a value, or raise the named
exception. -/
inductive LoadOutcome where
  | returns (entries : List StoredEntry)
  | raises (exc : String)
deriving DecidableEq

/-- `load_entries` over the full disk-state space.  `UnicodeDecodeError` is a
`ValueError`, a subclass of neither `json.JSONDecodeError`'s other bases nor
`OSError`, so the `except (json.JSONDecodeError, OSError)` clause at
research_log.py line 59 does not catch it and `load_entries` propagates it to
its caller. -/
def load_entries_outcome : RawLogFile → LoadOutcome
  | .decodable f => .returns (load_entries f)
  | .invalidUtf8 => .raises "UnicodeDecodeError"

/-- The disk as `append_entry` affects it: the log file plus whether the log
path's parent directories exist. -/
structure DiskState where
  file : LogFile
  parentDirsExist : Bool
deriving DecidableEq

/-- `timestamp or datetime.now(timezone.utc).isoformat()`: a missing or empty
(falsy) timestamp argument is replaced by the current time `now`. -/
def resolveTimestamp (timestamp : Option String) (now : String) : String :=
  match timestamp with
  | none => now
  | some t => if t = "" then now else t

/-- The dict `append_entry` appends (research_log.py lines 80-85). -/
def mkLogEntry (query response timestamp : String) (response_time_seconds : ℚ) :
    StoredEntry :=
  ⟨some query, some response, some timestamp, some (round2 response_time_seconds)⟩

/-- `append_entry` from research_log.py lines 63-88: load all entries (with
the `[]` fallback), append the new dict, create parent directories, rewrite
the whole array. -/
def append_entry (s : DiskState) (query response : String)
    (response_time_seconds : ℚ) (timestamp : Option String) (now : String) :
    DiskState :=
  { file := .jsonArray (load_entries s.file ++
      [mkLogEntry query response (resolveTimestamp timestamp now) response_time_seconds])
    parentDirsExist := true }

/-- `e.get("query") or ""`: a missing value becomes `""` (and `""` stays `""`). -/
def pyOr (o : Option String) : String :=
  match o with
  | none => ""
  | some s => s

/-- An entry as `get_relevant_entries` returns it: the stored entry spread
together with its rounded `relevance_score` (research_log.py lines 116-119). -/
structure ScoredEntry where
  entry : StoredEntry
  relevance_score : ℚ
deriving DecidableEq

/-- The annotated entry `{**e, "relevance_score": round(score, 2)}`. -/
def withScore (query : String) (e : StoredEntry) : ScoredEntry :=
  ⟨e, round2 (_relevance_score query (pyOr e.query))⟩

/-- `x.get("timestamp", "")`: the sort's tie-breaking key. -/
def tsOf (x : ScoredEntry) : String :=
  x.entry.timestamp.getD ""

/-- The Python sort key `(-x["relevance_score"], x.get("timestamp", ""))`,
compared lexicographically. -/
def sortKey (x : ScoredEntry) : Lex (ℚ × String) :=
  toLex (-x.relevance_score, tsOf x)

/-- Boolean form of the sort order `scored.sort(key=...)` uses: ascending in
`(-score, timestamp)`, i.e. descending score, ascending timestamp on ties. -/
def sortKeyLe (a b : ScoredEntry) : Bool :=
  decide (sortKey a ≤ sortKey b)

/-- `get_relevant_entries` from research_log.py lines 91-121 over a given log
file: empty result for a falsy query or empty store; otherwise filter by raw
score against `min_score`, annotate with the rounded score, sort stably by
descending rounded score with ascending timestamp on ties (Python's stable
`list.sort` is embedded as `mergeSort`), and truncate to `max_entries`. -/
def get_relevant_entries (query : String) (min_score : ℚ) (max_entries : Nat)
    (file : LogFile) : List ScoredEntry :=
  let entries := load_entries file
  if query = "" ∨ entries = [] then []
  else
    ((entries.filterMap fun e =>
        if min_score ≤ _relevance_score query (pyOr e.query) then some (withScore query e)
        else none).mergeSort sortKeyLe).take max_entries

/-- The ordering the returned list is claimed to satisfy: strictly greater
score first, equal scores ordered by ascending timestamp. -/
def scOrder (a b : ScoredEntry) : Prop :=
  b.relevance_score < a.relevance_score ∨
    (a.relevance_score = b.relevance_score ∧ tsOf a ≤ tsOf b)

/-- A message of the LangGraph conversation, restricted to what agent.py
inspects: `AIMessage` (content and the names of its tool calls),
`ToolMessage` (tool name), and the human/system messages it ignores. -/
inductive Message where
  | ai (content : String) (toolCalls : List String)
  | tool (name : String)
  | human (content : String)
  | sys (content : String)
deriving DecidableEq

/-- `_tools_used_from_messages` from agent.py lines 217-229: tool-call names
from `AIMessage`s with a truthy `tool_calls`, plus every `ToolMessage` name,
in message order with duplicates preserved. -/
def _tools_used_from_messages (messages : List Message) : List String :=
  messages.foldl
    (fun names m =>
      match m with
      | Message.ai _ toolCalls => if toolCalls = [] then names else names ++ toolCalls
      | Message.tool n => names ++ [n]
      | _ => names)
    []

/-- The scan of `ResearchAgent.research` (agent.py lines 308-312): the content
of the last `AIMessage` with truthy content, if any. -/
def lastAIContent (messages : List Message) : Option String :=
  messages.reverse.findSome? fun m =>
    match m with
    | Message.ai content _ => if content = "" then none else some content
    | _ => none

/-- The researcher's answer: the last AI content, or the fixed fallback when
the model produced none (agent.py lines 313-314). -/
def agent_answer (messages : List Message) : String :=
  (lastAIContent messages).getD "I couldn't generate a response. Please try again."

/-- The LLM endpoints the four stages call, as an oracle of response
functions.  Each function returns the model message's content, with `""`
standing for a model that produced no (falsy) content — exactly the value the
source tests with `if msg.content`.  `researchMessages` stands for
`self.graph.invoke(...)["messages"]`: the final conversation the agent graph
returns for the given input query. -/
structure PipelineOracle where
  clarifyContent : String → String
  researchMessages : String → List Message
  factCheckContent : String → String → String
  formatContent : String → String → String → String

/-- `clarify` from agent.py lines 166-176: the model content, or `""` when
the model returned no content. -/
def clarify (o : PipelineOracle) (query : String) : String :=
  let content := o.clarifyContent query
  if content = "" then "" else content

/-- `fact_check` from agent.py lines 232-249: the model content, or the
fallback `"No feedback."` when the model returned no content. -/
def fact_check (o : PipelineOracle) (draft query : String) : String :=
  let content := o.factCheckContent draft query
  if content = "" then "No feedback." else content

/-- `format_report` from agent.py lines 252-274: the model content, or the
unmodified draft when the model returned no content. -/
def format_report (o : PipelineOracle) (draft fact_check_feedback query : String) :
    String :=
  let content := o.formatContent draft fact_check_feedback query
  if content = "" then draft else content

/-- The enriched prompt built by `ResearchPipeline.research`
(agent.py lines 372-375). -/
def enriched_prompt (query clarification : String) : String :=
  "Original question: " ++ query ++ "\n\n" ++ clarification ++
    "\n\nFollow the suggested research plan above and answer the original question fully with cited sources."

/-- The dedup of `tools_used` (agent.py lines 401-402): keep the first
occurrence of each non-empty name, in order. -/
def dedupKeepFirst (tools_used : List String) : List String :=
  tools_used.foldl (fun seen t => if t ≠ "" ∧ t ∉ seen then seen ++ [t] else seen) []

/-- Python `", ".join`. -/
def joinComma : List String → String
  | [] => ""
  | [s] => s
  | s :: rest => s ++ ", " ++ joinComma rest

/-- The four pipeline stages, for recording invocation order. -/
inductive Stage where
  | clarify
  | research
  | factCheck
  | format
deriving DecidableEq

/-- Everything one run of `ResearchPipeline.research` produces, for stating
claims about it: the stage-invocation order, each intermediate value, and the
`query`/`response` arguments it passes to `append_entry` at the end. -/
structure PipelineRun where
  trace : List Stage
  clarification : String
  researchInput : String
  draft : String
  feedback : String
  formatOutput : String
  uniqueTools : List String
  report : String
  loggedQuery : String
  loggedResponse : String

/-- `ResearchPipeline.research` from agent.py lines 345-410: clarify, build
the enriched prompt (falling back to the raw query when the clarification
strips to nothing), research (collecting tools used), fact-check the draft
against the original query, format, append the deduplicated tools-used
section, and log the original query with the final report.  The elapsed-time
measurement and the swallowed `OSError` of the final `append_entry` are not
modelled; the entry's `query`/`response` arguments are recorded instead. -/
def pipeline_research (o : PipelineOracle) (query : String) : PipelineRun :=
  let clarification := clarify o query
  let enhanced_query :=
    if pyStrip clarification = "" then query else enriched_prompt query clarification
  let msgs := o.researchMessages enhanced_query
  let draft := agent_answer msgs
  let tools_used := _tools_used_from_messages msgs
  let feedback := fact_check o draft query
  let formatted := format_report o draft feedback query
  let unique_tools := dedupKeepFirst tools_used
  let report :=
    if unique_tools = [] then formatted
    else formatted ++ "\n\n## Tools used\n" ++ joinComma unique_tools
  { trace := [Stage.clarify, Stage.research, Stage.factCheck, Stage.format]
    clarification := clarification
    researchInput := enhanced_query
    draft := draft
    feedback := feedback
    formatOutput := formatted
    uniqueTools := unique_tools
    report := report
    loggedQuery := query
    loggedResponse := report }

/-- An oracle whose model always returns no content, for concrete instances. -/
def emptyOracle : PipelineOracle :=
  ⟨fun _ => "", fun _ => [], fun _ _ => "", fun _ _ _ => ""⟩

/-- An oracle whose model returns whitespace-only clarification content. -/
def blankOracle : PipelineOracle :=
  ⟨fun _ => " ", fun _ => [], fun _ _ => "", fun _ _ _ => ""⟩

/-- An oracle for a run in which the researcher calls one tool and every
stage produces content. -/
def toolOracle : PipelineOracle :=
  ⟨fun _ => "plan", fun _ => [Message.ai "draft" ["search_web"]],
    fun _ _ => "fb", fun _ _ _ => "final"⟩

/-! ## Helper lemmas -/

/-- The empty query normalizes to itself, so its score is 0 whatever the
logged query is. -/
theorem score_empty_query (logged_query : String) :
    _relevance_score "" logged_query = 0 := rfl

/-- The empty character list is a substring of every list. -/
theorem isSubstrOf_nil (cs : List Char) : isSubstrOf [] cs = true := by
  cases cs <;> simp [isSubstrOf, listStartsWith]

/-- A string with a non-empty normalization is itself non-empty. -/
theorem ne_empty_of_normalize_ne (q : String) (hq : _normalize q ≠ "") : q ≠ "" :=
  fun h => hq (by rw [h]; rfl)

/-- `round(0.9, 2) = 0.9`. -/
theorem round2_nine_tenths : round2 (9/10) = 9/10 := by
  have h1 : ((9:ℚ)/10) * 100 = 90 := by norm_num
  rw [round2, h1]
  have h2 : ⌊(90:ℚ)⌋ = 90 := by norm_num [Int.floor_eq_iff]
  rw [roundHalfEven, h2]
  norm_num

/-- A `filterMap` that keeps `f a` exactly when `p a` holds is the `map` of
`f` over the `filter` of `p`. -/
theorem filterMap_guard {α β : Type*} (p : α → Prop) [DecidablePred p] (f : α → β) :
    ∀ l : List α,
      (l.filterMap fun a => if p a then some (f a) else none) =
        (l.filter fun a => decide (p a)).map f := by
  intro l
  induction l with
  | nil => rfl
  | cons a t ih =>
    by_cases hpa : p a <;> simp [List.filterMap_cons, List.filter_cons, hpa, ih]

/-- The sort comparison is transitive. -/
theorem sortKeyLe_trans (a b c : ScoredEntry) (h1 : sortKeyLe a b = true)
    (h2 : sortKeyLe b c = true) : sortKeyLe a c = true := by
  rw [sortKeyLe, decide_eq_true_eq] at h1 h2 ⊢
  exact le_trans h1 h2

/-- The sort comparison is total. -/
theorem sortKeyLe_total (a b : ScoredEntry) :
    (sortKeyLe a b || sortKeyLe b a) = true := by
  rw [sortKeyLe, sortKeyLe, Bool.or_eq_true, decide_eq_true_eq, decide_eq_true_eq]
  exact le_total _ _

/-- The sort comparison means: higher score first, ties in ascending
timestamp order. -/
theorem sortKeyLe_imp (a b : ScoredEntry) (h : sortKeyLe a b = true) :
    scOrder a b := by
  rw [sortKeyLe, decide_eq_true_eq, sortKey, sortKey, Prod.Lex.le_iff] at h
  cases h with
  | inl h => exact Or.inl (neg_lt_neg_iff.mp h)
  | inr h => exact Or.inr ⟨neg_inj.mp h.1, h.2⟩

/-- Any `mergeSort` by the Python sort key is ordered by descending score
with ascending timestamps on ties. -/
theorem pairwise_mergeSort_scOrder (l : List ScoredEntry) :
    List.Pairwise scOrder (l.mergeSort sortKeyLe) :=
  (List.sorted_mergeSort sortKeyLe_trans sortKeyLe_total _).imp
    fun {a b} hab => sortKeyLe_imp a b hab

/-! ## Claim theorems -/

/-- C1: for every pair of strings, the relevance score is computed exactly as
the specification states it: normalize both; empty normalized query scores 0;
exact normalized match scores 1.0; substring containment either direction
scores 0.9; otherwise, with both strings tokenized into word sets and the
fixed stop words removed, the score is `min(1.0, 1.2 × |intersection| /
|query word set|)`, and 0 when the query's word set is empty. -/
theorem relevance_score_matches_spec (query logged_query : String) :
    _relevance_score query logged_query = spec_relevance_score query logged_query := by
  simp only [_relevance_score, spec_relevance_score]
  split_ifs <;> try rfl
  rw [min_comm]
  congr 1
  ring

/-- C6 (amended): `score(q, q) = 1.0` for every `q` whose normalized form is
non-empty, and `score("", s) = 0.0` for every `s`. -/
theorem relevance_score_reflexive_cases :
    (∀ q : String, _normalize q ≠ "" → _relevance_score q q = 1) ∧
    (∀ s : String, _relevance_score "" s = 0) := by
  constructor
  · intro q hq
    simp only [_relevance_score]
    rw [if_neg hq]
    simp
  · intro s
    exact score_empty_query s

/-- C6 witness: the reflexivity case at `"abc"` and the empty-query case at
`"xyz"`. -/
theorem relevance_score_reflexive_cases_witness :
    _normalize "abc" ≠ "" ∧ _relevance_score "abc" "abc" = 1 ∧
      _relevance_score "" "xyz" = 0 :=
  ⟨by decide, relevance_score_reflexive_cases.1 "abc" (by decide),
    relevance_score_reflexive_cases.2 "xyz"⟩

/-- C6 counterexample: `"!"` is a non-empty string, yet `score("!", "!")` is
0, not 1.0, because `"!"` normalizes to the empty string. -/
theorem relevance_score_self_cex :
    ("!" : String) ≠ "" ∧ _relevance_score "!" "!" ≠ 1 := by
  refine ⟨by decide, ?_⟩
  rw [show _relevance_score "!" "!" = 0 from rfl]
  norm_num

/-- C10 (amended): for every probe query whose normalized form is non-empty,
a stored entry whose logged query is absent, empty, or normalizes to the
empty string receives the containment score 0.9 (the empty string is a
substring of every string), and is returned by `relevant()` under the default
`min_score` 0.4 when it is within the `max_entries` cutoff — here shown for a
store containing it alone. -/
theorem empty_logged_query_scores (q : String) (e : StoredEntry)
    (hq : _normalize q ≠ "") (he : _normalize (pyOr e.query) = "") :
    _relevance_score q (pyOr e.query) = 9/10 ∧
    get_relevant_entries q (4/10) 5 (LogFile.jsonArray [e]) = [⟨e, 9/10⟩] := by
  have hsub : isSubstrOf (_normalize (pyOr e.query)).data (_normalize q).data = true := by
    rw [he]
    exact isSubstrOf_nil _
  have hscore : _relevance_score q (pyOr e.query) = 9/10 := by
    simp only [_relevance_score]
    rw [if_neg hq, if_neg fun heq => hq (heq.trans he),
      if_pos (by rw [Bool.or_eq_true]; exact Or.inr hsub)]
  refine ⟨hscore, ?_⟩
  have hq' : q ≠ "" := ne_empty_of_normalize_ne q hq
  simp only [get_relevant_entries, load_entries]
  rw [if_neg (by simp [hq'])]
  rw [List.filterMap_cons]
  rw [hscore, if_pos (by norm_num), List.filterMap_nil]
  rw [List.mergeSort_singleton]
  simp only [List.take_succ_cons, List.take_nil]
  rw [withScore, hscore, round2_nine_tenths]

/-- C10 witness: probe `"hi"` against a singleton store whose entry has no
`query` key. -/
theorem empty_logged_query_scores_witness :
    _normalize "hi" ≠ "" ∧ _normalize (pyOr (none : Option String)) = "" ∧
    _relevance_score "hi" (pyOr (none : Option String)) = 9/10 ∧
    get_relevant_entries "hi" (4/10) 5
        (LogFile.jsonArray [⟨none, some "r", some "t", some 1⟩]) =
      [⟨⟨none, some "r", some "t", some 1⟩, 9/10⟩] :=
  ⟨by decide, rfl,
    (empty_logged_query_scores "hi" ⟨none, some "r", some "t", some 1⟩
      (by decide) rfl).1,
    (empty_logged_query_scores "hi" ⟨none, some "r", some "t", some 1⟩
      (by decide) rfl).2⟩

/-- C10 counterexample: the probe `"!"` is non-empty, yet against an entry
whose logged query is empty the score is 0 (not 0.9) and `relevant()` with
the default `min_score` 0.4 returns nothing, because `"!"` normalizes to the
empty string and the empty-query guard fires first. -/
theorem empty_logged_query_scores_cex :
    ("!" : String) ≠ "" ∧ _relevance_score "!" "" = 0 ∧
    get_relevant_entries "!" (4/10) 5
        (LogFile.jsonArray [⟨some "", some "r", some "t", some 1⟩]) = [] := by
  refine ⟨by decide, rfl, ?_⟩
  simp only [get_relevant_entries, load_entries]
  rw [if_neg (by simp)]
  rw [List.filterMap_cons]
  rw [show _relevance_score "!" (pyOr (some "")) = 0 from rfl,
    if_neg (by norm_num), List.filterMap_nil]
  rw [List.mergeSort_nil]
  rfl

/-- C2 (amended): for every query `q` that is non-empty — or any query when
`min_score` is positive — `relevant(q, min_score, max_entries)` returns
exactly the stored entries whose score against `q` is at least `min_score`,
each annotated with its rounded relevance score, sorted by descending
(rounded) score with ascending timestamp among entries of equal score,
truncated to at most `max_entries` entries; when `q` is the empty string and
`min_score ≤ 0` the function instead returns the empty list. -/
theorem get_relevant_entries_spec (q : String) (ms : ℚ) (me : Nat)
    (file : LogFile) (h : q ≠ "" ∨ 0 < ms) :
    ∃ l : List ScoredEntry,
      List.Perm
        (((load_entries file).filter fun e =>
            decide (ms ≤ _relevance_score q (pyOr e.query))).map (withScore q)) l ∧
      List.Pairwise scOrder l ∧
      get_relevant_entries q ms me file = List.take me l := by
  by_cases hq : q = ""
  · have hms : 0 < ms := h.resolve_left (by simp [hq])
    have hfil : ((load_entries file).filter fun e =>
        decide (ms ≤ _relevance_score q (pyOr e.query))) = [] := by
      refine List.filter_eq_nil_iff.mpr ?_
      intro e _
      simp only [decide_eq_true_eq]
      rw [hq, score_empty_query]
      exact not_le.mpr hms
    refine ⟨[], by simp [hfil], List.Pairwise.nil, ?_⟩
    simp [get_relevant_entries, hq]
  · by_cases hes : load_entries file = []
    · refine ⟨[], by simp [hes], List.Pairwise.nil, ?_⟩
      simp [get_relevant_entries, hes]
    · set L := ((load_entries file).filter fun e =>
          decide (ms ≤ _relevance_score q (pyOr e.query))).map (withScore q) with hL
      refine ⟨L.mergeSort sortKeyLe, (List.mergeSort_perm _ _).symm,
        pairwise_mergeSort_scOrder _, ?_⟩
      simp only [get_relevant_entries]
      rw [if_neg (by simp [hq, hes]), filterMap_guard, ← hL]

/-- C2 witness: the probe `"hi"` with the default parameters against a
singleton store. -/
theorem get_relevant_entries_spec_witness :
    (("hi" : String) ≠ "" ∨ (0:ℚ) < 4/10) ∧
    (∃ l : List ScoredEntry,
      List.Perm
        (((load_entries (LogFile.jsonArray [⟨some "hi", some "r", some "t", some 1⟩])).filter
            fun e => decide ((4:ℚ)/10 ≤ _relevance_score "hi" (pyOr e.query))).map
          (withScore "hi")) l ∧
      List.Pairwise scOrder l ∧
      get_relevant_entries "hi" (4/10) 5
          (LogFile.jsonArray [⟨some "hi", some "r", some "t", some 1⟩]) =
        List.take 5 l) :=
  ⟨Or.inl (by decide),
    get_relevant_entries_spec "hi" (4/10) 5
      (LogFile.jsonArray [⟨some "hi", some "r", some "t", some 1⟩])
      (Or.inl (by decide))⟩

/-- C2 counterexample: with the empty query and `min_score = 0`, the stored
entry scores `0 ≥ min_score` and so by the claim should be returned, but
`get_relevant_entries` returns the empty list (the source's `if not query`
guard fires first). -/
theorem get_relevant_entries_empty_query_cex :
    get_relevant_entries "" 0 5
        (LogFile.jsonArray [⟨some "x", some "r", some "t", some 1⟩]) = [] ∧
    (0:ℚ) ≤ _relevance_score "" (pyOr (some "x")) ∧
    load_entries (LogFile.jsonArray [⟨some "x", some "r", some "t", some 1⟩]) ≠ [] :=
  ⟨rfl, by rw [score_empty_query], by simp [load_entries]⟩

/-- C4: `append(q, r, t)` followed by `load()` yields a store whose last
entry has `query = q`, `response = r`, and `response_time_seconds =
round(t, 2)`; `append` also creates the log path's missing parent
directories. -/
theorem append_then_load_last (s : DiskState) (q r : String) (t : ℚ)
    (timestamp : Option String) (now : String) :
    ∃ e, (load_entries (append_entry s q r t timestamp now).file).getLast? = some e ∧
      e.query = some q ∧ e.response = some r ∧
      e.response_time_seconds = some (round2 t) ∧
      (append_entry s q r t timestamp now).parentDirsExist = true :=
  ⟨mkLogEntry q r (resolveTimestamp timestamp now) t,
    by simp [append_entry, load_entries, List.getLast?_concat], rfl, rfl, rfl, rfl⟩

/-- C5: the claim that `load()` never raises fails on one disk state the
claim itself covers ("a file whose content is not valid JSON"): on a file
whose bytes are not valid UTF-8, `load_entries` raises `UnicodeDecodeError` —
uncaught by its `except (json.JSONDecodeError, OSError)` clause — instead of
returning the empty sequence; on every other state it does fail soft, as the
function's own docstring ("Returns [] if missing or invalid") promises for
all of them. -/
theorem load_entries_raises_on_invalid_utf8 :
    load_entries_outcome RawLogFile.invalidUtf8 = LoadOutcome.raises "UnicodeDecodeError" ∧
    load_entries_outcome (RawLogFile.decodable LogFile.missing) = LoadOutcome.returns [] ∧
    load_entries_outcome (RawLogFile.decodable LogFile.unreadable) = LoadOutcome.returns [] ∧
    load_entries_outcome (RawLogFile.decodable LogFile.invalidJson) = LoadOutcome.returns [] ∧
    load_entries_outcome (RawLogFile.decodable LogFile.jsonNonArray) = LoadOutcome.returns [] ∧
    ∀ entries, load_entries_outcome (RawLogFile.decodable (LogFile.jsonArray entries)) =
      LoadOutcome.returns entries :=
  ⟨rfl, rfl, rfl, rfl, rfl, fun _ => rfl⟩

/-- C9: `append` never mutates or deletes existing entries: whatever `load()`
read before, after `append` the stored sequence is exactly the previous
entries in their previous positions followed by the single new entry. -/
theorem append_preserves_prior_entries (s : DiskState) (q r : String) (t : ℚ)
    (timestamp : Option String) (now : String) :
    load_entries (append_entry s q r t timestamp now).file =
      load_entries s.file ++ [mkLogEntry q r (resolveTimestamp timestamp now) t] := rfl

/-- C3 (amended): every pipeline run invokes the four stages in the order
Clarify, Research, Fact-Check, Format, each exactly once; the draft is the
researcher's answer on the (possibly enriched) research input, the feedback
is the fact-check of the draft against the original query, the format stage
output is produced from draft and feedback; the appended log entry's query is
the original input query (not the enriched prompt) and its response is the
formatter's output — with the deduplicated `"## Tools used"` section appended
when any tools were called. -/
theorem pipeline_order_and_log (o : PipelineOracle) (q : String) :
    (pipeline_research o q).trace =
      [Stage.clarify, Stage.research, Stage.factCheck, Stage.format] ∧
    (pipeline_research o q).loggedQuery = q ∧
    (pipeline_research o q).draft =
      agent_answer (o.researchMessages (pipeline_research o q).researchInput) ∧
    (pipeline_research o q).feedback =
      fact_check o (pipeline_research o q).draft q ∧
    (pipeline_research o q).formatOutput =
      format_report o (pipeline_research o q).draft (pipeline_research o q).feedback q ∧
    (pipeline_research o q).loggedResponse =
      (if (pipeline_research o q).uniqueTools = [] then (pipeline_research o q).formatOutput
       else (pipeline_research o q).formatOutput ++ "\n\n## Tools used\n" ++
         joinComma (pipeline_research o q).uniqueTools) :=
  ⟨rfl, rfl, rfl, rfl, rfl, rfl⟩

/-- C3 counterexample: in a run whose researcher calls the tool
`search_web`, the logged response is the formatter's output with the
`"## Tools used"` section appended, so it is not equal to the formatter's
output as the claim states. -/
theorem pipeline_logged_response_cex :
    (pipeline_research toolOracle "q").loggedResponse ≠
      (pipeline_research toolOracle "q").formatOutput := by decide

/-- C7 (amended): when the model produces no final content each stage
substitutes its fixed fallback instead of raising: the research stage returns
`"I couldn't generate a response. Please try again."`, the fact-check stage
returns `"No feedback."`, and the format stage returns the unmodified
draft. -/
theorem stage_fallbacks :
    (∀ msgs : List Message, lastAIContent msgs = none →
        agent_answer msgs = "I couldn't generate a response. Please try again.") ∧
    (∀ (o : PipelineOracle) (draft query : String), o.factCheckContent draft query = "" →
        fact_check o draft query = "No feedback.") ∧
    (∀ (o : PipelineOracle) (draft feedback query : String),
        o.formatContent draft feedback query = "" →
        format_report o draft feedback query = draft) := by
  refine ⟨?_, ?_, ?_⟩
  · intro msgs h
    rw [agent_answer, h]
    rfl
  · intro o draft query h
    simp [fact_check, h]
  · intro o draft feedback query h
    simp [format_report, h]

/-- C7 witness: the three fallbacks at an oracle that always returns no
content and an empty conversation. -/
theorem stage_fallbacks_witness :
    lastAIContent [] = none ∧
    agent_answer [] = "I couldn't generate a response. Please try again." ∧
    emptyOracle.factCheckContent "d" "q" = "" ∧
    fact_check emptyOracle "d" "q" = "No feedback." ∧
    emptyOracle.formatContent "d" "f" "q" = "" ∧
    format_report emptyOracle "d" "f" "q" = "d" :=
  ⟨rfl, stage_fallbacks.1 [] rfl, rfl, stage_fallbacks.2.1 emptyOracle "d" "q" rfl,
    rfl, stage_fallbacks.2.2 emptyOracle "d" "f" "q" rfl⟩

/-- C7 counterexample: the fact-check stage's fallback is the string
`"No feedback."` (with a trailing period), not `"No feedback"` as the claim
states. -/
theorem fact_check_fallback_cex :
    fact_check emptyOracle "d" "q" ≠ "No feedback" := by decide

/-- C8: whenever the clarify stage's output is empty or whitespace-only, the
orchestrator feeds the raw original query unmodified into the research stage
instead of the enriched prompt. -/
theorem clarification_fallback (o : PipelineOracle) (q : String)
    (h : pyStrip (clarify o q) = "") :
    (pipeline_research o q).researchInput = q := by
  simp only [pipeline_research]
  rw [if_pos h]

/-- C8 witness: an oracle whose clarifier returns a single space. -/
theorem clarification_fallback_witness :
    pyStrip (clarify blankOracle "Q") = "" ∧
    (pipeline_research blankOracle "Q").researchInput = "Q" :=
  ⟨by decide, clarification_fallback blankOracle "Q" (by decide)⟩
